import Mathlib

/-!
Verification development for the Kozai-cycle example driver
(`examples/kozai/problem.c`) of the reboundx repository.

The driver is a ~144-line C program: it builds a three-body simulation
(star, planet, distant perturber), attaches the "spin" force with
per-particle parameters, and runs a loop that samples the state, writes one
comma-separated record per iteration, and advances the integrator.

The embedding below mirrors the driver literally: every numeric constant,
every library call (as a trace of `Call` events in source order), the
parameter side-table the driver fills, and the per-iteration output record.
Library functions whose implementation lives outside this repository
(the rebound/reboundx core) are modelled from the specification; each such
definition carries a doc comment starting `Modelled from the spec:`.
-/

namespace Kozai

noncomputable section

/-! ## Numeric constants of the driver, in source order -/

/-- The constant `M_PI` of `<math.h>`, exact in the embedding. -/
def M_PI : ℝ := Real.pi

/-- Line 18: `double tmax = 1e5 * 2 * M_PI;`. -/
def tmax : ℝ := 1e5 * 2 * M_PI

/-- Line 30: `star.m  = 1.1;`. -/
def star_m : ℝ := 1.1

/-- Line 31: `star.r = 0.00465;`. -/
def star_r : ℝ := 0.00465

/-- Line 35: `double planet_m  = 7.8 * 9.55e-4;` (in Jupiter masses). -/
def planet_m : ℝ := 7.8 * 9.55e-4

/-- Line 36: `double planet_r = 1 * 4.676e-4;`. -/
def planet_r : ℝ := 1 * 4.676e-4

/-- Line 37: `double planet_a = 5.;`. -/
def planet_a : ℝ := 5

/-- Line 38: `double planet_e = 0.1;`. -/
def planet_e : ℝ := 0.1

/-- Line 39: `double planet_omega = 45. * (M_PI/180);`. -/
def planet_omega : ℝ := 45 * (M_PI / 180)

/-- Line 44: `double perturber_inc = 85.6 * (M_PI / 180.);`. -/
def perturber_inc : ℝ := 85.6 * (M_PI / 180)

/-- Line 45: `double perturber_mass = 1.1;`. -/
def perturber_mass : ℝ := 1.1

/-- Line 46: `double perturber_a  = 1000.;`. -/
def perturber_a : ℝ := 1000

/-- Line 47: `double perturber_e = 0.0;`. -/
def perturber_e : ℝ := 0

/-- Line 55: `const double solar_spin_period = 20. * 2. * M_PI / 365.;`. -/
def solar_spin_period : ℝ := 20 * 2 * M_PI / 365

/-- Line 56: `const double solar_spin = (2 * M_PI) / solar_spin_period;`. -/
def solar_spin : ℝ := 2 * M_PI / solar_spin_period

/-- Line 57: `const double solar_k2 = 0.028;`. -/
def solar_k2 : ℝ := 0.028

/-- Line 58: `const double solar_tau = 0.2 / solar_k2 * (2 * M_PI / 3.154e7);`. -/
def solar_tau : ℝ := 0.2 / solar_k2 * (2 * M_PI / 3.154e7)

/-- Line 68: `const double spin_period_p = (10. / 24.) * 2. * M_PI / 365.;`. -/
def spin_period_p : ℝ := (10 / 24) * 2 * M_PI / 365

/-- Line 69: `const double spin_p = (2. * M_PI) / spin_period_p;`. -/
def spin_p : ℝ := 2 * M_PI / spin_period_p

/-- Line 70: `const double planet_k2 = 0.51;`. -/
def planet_k2 : ℝ := 0.51

/-- Line 71: `const double planet_tau = 0.02 / planet_k2 * (2 * M_PI / 3.154e7);`. -/
def planet_tau : ℝ := 0.02 / planet_k2 * (2 * M_PI / 3.154e7)

/-- Line 73: `const double theta_1 = 1. * M_PI / 180.;` (one degree obliquity). -/
def theta_1 : ℝ := 1 * M_PI / 180

/-- Line 74: `const double phi_1 = 0. * M_PI / 180;`. -/
def phi_1 : ℝ := 0 * M_PI / 180

/-! ## Particle construction records

The driver adds particles either with a Cartesian `struct reb_particle`
(`reb_add`) or by orbital elements (`reb_add_fmt` with a format string).
The element-to-Cartesian conversion is library code outside this
repository; the embedding records exactly the values the driver passes. -/

/-- A particle-construction call as issued by the driver: either a Cartesian
`reb_add` (mass, radius, position, velocity) or a `reb_add_fmt` with the
format string used in the source and the values passed for its fields. -/
inductive ParticleInit
  | cartesian (m r x y z vx vy vz : ℝ)
  | fmt_m_r_a_e_omega (m r a e omega : ℝ)
  | fmt_m_a_e_inc (m a e inc : ℝ)

/-- Lines 29-48: the three particles the driver adds, in order: the star
(Cartesian, zeroed struct except mass and radius), the planet
(`"m r a e omega"`), and the perturber (`"m a e inc"`). -/
def setupParticles : List ParticleInit :=
  [ParticleInit.cartesian star_m star_r 0 0 0 0 0 0,
   ParticleInit.fmt_m_r_a_e_omega planet_m planet_r planet_a planet_e planet_omega,
   ParticleInit.fmt_m_a_e_inc perturber_mass perturber_a perturber_e perturber_inc]

/-! ## Simulation object -/

/-- The rebound integrator selector, an enumeration in the library header.
The driver selects `REB_INTEGRATOR_IAS15` (line 24). -/
inductive RebIntegrator
  | ias15
  | whfast
  | leapfrog
  | mercurius
  deriving DecidableEq

/-- Modelled from the spec: the order of the underlying scheme of each
integrator in the catalog; the integrator implementations are not part of
this repository.  IAS15 is the 15th-order adaptive-step scheme (the spec's
section 4.5 requires order at least 7 for this problem class, and the
driver's header comment says the chosen integrator automatically adjusts
the timestep); the symplectic alternatives are 2nd-order. -/
def RebIntegrator.order : RebIntegrator → ℕ
  | RebIntegrator.ias15 => 15
  | RebIntegrator.whfast => 2
  | RebIntegrator.leapfrog => 2
  | RebIntegrator.mercurius => 2

/-- Modelled from the spec: whether the integrator adapts its own step size
(section 4.5 step-size controller; the driver's header comment: the IAS15
integrator automatically adjusts the timestep). -/
def RebIntegrator.adaptive : RebIntegrator → Bool
  | RebIntegrator.ias15 => true
  | _ => false

/-- The slice of `struct reb_simulation` the driver writes during setup:
current time, timestep, integrator selector, and the particle list. -/
structure Sim where
  t : ℝ
  dt : ℝ
  integrator : RebIntegrator
  particles : List ParticleInit

/-- Lines 21-48 of the driver: `reb_create_simulation` (time 0), then
`r->dt = M_PI*1e-1`, `r->integrator = REB_INTEGRATOR_IAS15`, then the three
particle additions. -/
def setupSim : Sim :=
  { t := 0
    dt := M_PI * 1e-1
    integrator := RebIntegrator.ias15
    particles := setupParticles }

/-! ## The reboundx parameter side-table

`rebx_set_param_double` / `rebx_get_param` live in the reboundx core, which
is not part of this repository; their contract is modelled from the spec
(sections 4.1 and 6): string-keyed per-particle doubles, get returns a
not-found signal for unknown keys.  The embedding keys entries by
(particle index, name); the driver only ever passes `&r->particles[i].ap`,
so the particle index stands for the `ap` pointer. -/

/-- The reboundx side state the driver touches: the parameter side-table,
the list of attached force names, and whether the spin ODE was
initialized. -/
structure RebxExtras where
  params : List (ℕ × String × ℝ)
  forces : List String
  spinOdeInitialized : Bool

/-- Modelled from the spec: `setParameter(particleIndex, key, value)`
(section 4.1) attaches a named double to one particle; a fresh entry is
prepended, so the most recent write to a key is found first. -/
def rebx_set_param_double (rebx : RebxExtras) (particle : ℕ) (key : String)
    (value : ℝ) : RebxExtras :=
  { rebx with params := (particle, key, value) :: rebx.params }

/-- Modelled from the spec: `getParameter(particleIndex, key) -> value or
NotFound` (section 4.1); unknown keys on get return a not-found signal,
not a default value (section 6). -/
def rebx_get_param (rebx : RebxExtras) (particle : ℕ) (key : String) :
    Option ℝ :=
  (rebx.params.find? (fun e => e.1 == particle && e.2.1 == key)).map
    (fun e => e.2.2)

/-- Modelled from the spec: the tidal dissipation timescale is supplied
per-particle through the parameter interface (section 6);
`rebx_set_time_lag` stores the given lag for the given particle. -/
def rebx_set_time_lag (rebx : RebxExtras) (particle : ℕ) (tau : ℝ) :
    RebxExtras :=
  rebx_set_param_double rebx particle ("tau") tau

/-- Lines 50-85 of the driver: `rebx_attach` (empty side state), the
`"spin"` force loaded and added, the parameter writes for the star
(particle 0) and the planet (particle 1) in source order, the two
`rebx_set_time_lag` calls, and finally `rebx_spin_initialize_ode`. -/
def setupRebx : RebxExtras :=
  let rebx : RebxExtras :=
    { params := [], forces := [], spinOdeInitialized := false }
  let rebx := { rebx with forces := rebx.forces ++ ["spin"] }
  let rebx := rebx_set_param_double rebx 0 ("k2") solar_k2
  let rebx := rebx_set_param_double rebx 0 ("moi") (0.08 * star_m * star_r * star_r)
  let rebx := rebx_set_param_double rebx 0 ("spin_sx") (solar_spin * 0.0)
  let rebx := rebx_set_param_double rebx 0 ("spin_sy") (solar_spin * 0.0)
  let rebx := rebx_set_param_double rebx 0 ("spin_sz") (solar_spin * 1.0)
  let rebx := rebx_set_time_lag rebx 0 solar_tau
  let rebx := rebx_set_param_double rebx 1 ("k2") planet_k2
  let rebx := rebx_set_param_double rebx 1 ("moi") (0.25 * planet_m * planet_r * planet_r)
  let rebx := rebx_set_param_double rebx 1 ("spin_sx") (spin_p * Real.sin theta_1 * Real.sin phi_1)
  let rebx := rebx_set_param_double rebx 1 ("spin_sy") (spin_p * Real.sin theta_1 * Real.cos phi_1)
  let rebx := rebx_set_param_double rebx 1 ("spin_sz") (spin_p * Real.cos theta_1)
  let rebx := rebx_set_time_lag rebx 1 planet_tau
  { rebx with spinOdeInitialized := true }

/-! ## The driver as a trace of library calls

A second, order-sensitive view of the same source: each library call `main`
issues, as an event, in source order.  Payloads are restricted to particle
indices and parameter keys so the trace is decidable. -/

/-- One library call issued by the driver's `main`. -/
inductive Call
  | createSimulation
  | setDt
  | setIntegrator
  | setHeartbeat
  | rebAdd (particle : ℕ)
  | rebAddFmt (particle : ℕ)
  | rebxAttach
  | loadForce (name : String)
  | addForce
  | setParamDouble (particle : ℕ) (key : String)
  | setTimeLag (particle : ℕ)
  | moveToCom
  | alignSimulation
  | spinInitializeOde
  | fopenOutput
  | fprintfHeader
  | getParam (particle : ℕ) (key : String)
  | particleToOrbit
  | getComOfPair
  | printfConsole
  | fprintfRecord
  | integrate
  deriving DecidableEq

/-- Whether a call advances the simulation clock: only `reb_integrate`
does. -/
def advancesTime : Call → Bool
  | Call.integrate => true
  | _ => false

/-- Lines 21-88 of the driver: every library call of the setup phase, in
source order, up to and including writing the output header line. -/
def setupCalls : List Call :=
  [Call.createSimulation, Call.setDt, Call.setIntegrator, Call.setHeartbeat,
   Call.rebAdd 0, Call.rebAddFmt 1, Call.rebAddFmt 2,
   Call.rebxAttach, Call.loadForce ("spin"), Call.addForce,
   Call.setParamDouble 0 ("k2"), Call.setParamDouble 0 ("moi"),
   Call.setParamDouble 0 ("spin_sx"), Call.setParamDouble 0 ("spin_sy"),
   Call.setParamDouble 0 ("spin_sz"), Call.setTimeLag 0,
   Call.setParamDouble 1 ("k2"), Call.setParamDouble 1 ("moi"),
   Call.setParamDouble 1 ("spin_sx"), Call.setParamDouble 1 ("spin_sy"),
   Call.setParamDouble 1 ("spin_sz"), Call.setTimeLag 1,
   Call.moveToCom, Call.alignSimulation, Call.spinInitializeOde,
   Call.fopenOutput, Call.fprintfHeader]

/-- Lines 90-130: the library calls of one iteration of the main loop, in
source order: the six spin-parameter lookups, the two orbit conversions
around the pair-centre-of-mass computation, the console print on every
10000th iteration, the file record, and the `reb_integrate` call last. -/
def loopBodyCalls (i : ℕ) : List Call :=
  [Call.getParam 0 ("spin_sx"), Call.getParam 0 ("spin_sy"),
   Call.getParam 0 ("spin_sz"),
   Call.getParam 1 ("spin_sx"), Call.getParam 1 ("spin_sy"),
   Call.getParam 1 ("spin_sz"),
   Call.particleToOrbit, Call.getComOfPair, Call.particleToOrbit] ++
  (if i % 10000 = 0 then [Call.printfConsole] else []) ++
  [Call.fprintfRecord, Call.integrate]

/-- The full trace of the driver run with `n` loop iterations: the setup
phase followed by the loop bodies in order (the source runs
`n = 1000000`). -/
def driverTrace (n : ℕ) : List Call :=
  setupCalls ++ (List.range n).flatMap loopBodyCalls

/-! ## The integration loop's clock

`reb_integrate` is library code outside this repository; its effect on the
simulation clock is modelled from the spec.  The driver's loop (lines
90-130) calls `reb_integrate(r, r->t + (100 * 2 * M_PI))` once per
iteration, after the output statements. -/

/-- Modelled from the spec: `advanceTo(targetTime)` repeatedly invokes the
adaptive integrator until the simulation clock reaches the target, the
final sub-step truncated to land exactly on the caller-specified time
(sections 4.5 and 4.6); on the clock it returns the target itself. -/
def reb_integrate (_t target : ℝ) : ℝ :=
  target

/-- The simulation clock after `n` iterations of the driver's main loop:
the clock starts at 0 and iteration `n` calls
`reb_integrate(r, r->t + (100 * 2 * M_PI))` (line 129). -/
def loop_t : ℕ → ℝ
  | 0 => 0
  | n + 1 => reb_integrate (loop_t n) (loop_t n + 100 * 2 * M_PI)

/-- The target time the driver passes to `reb_integrate` at iteration `n`:
`r->t + (100 * 2 * M_PI)` (line 129). -/
def targetTime (n : ℕ) : ℝ :=
  loop_t n + 100 * 2 * M_PI

/-! ## The side-table across iterations

Modelling of the integrator's effect on the parameter side-table, from the
spec's lifecycle rules. -/

/-- Modelled from the spec: during a step the integrator mutates only the
values of the auxiliary variables (the spin ODE writes back into the
side-table) and never adds or removes entries — auxiliary variables are
mutated only by the integrator and are otherwise read-only (section 3,
Lifecycle).  `u` gives the new value of each entry from its particle, key
and old value. -/
def integrateParams (u : ℕ → String → ℝ → ℝ) :
    List (ℕ × String × ℝ) → List (ℕ × String × ℝ)
  | [] => []
  | e :: tl => (e.1, e.2.1, u e.1 e.2.1 e.2.2) :: integrateParams u tl

/-- The reboundx side state seen at the top of loop iteration `n`: the
setup state, with each of the `n` earlier `reb_integrate` calls rewriting
the auxiliary values (`u i` is the rewrite of iteration `i`). -/
def rebxAfter (u : ℕ → ℕ → String → ℝ → ℝ) : ℕ → RebxExtras
  | 0 => setupRebx
  | n + 1 =>
    { rebxAfter u n with
      params := integrateParams (u n) (rebxAfter u n).params }

/-! ## The output record of one loop iteration -/

/-- The quantities the loop body of lines 91-123 has in scope when it
reaches the `fprintf` of line 128: the star's and planet's Cartesian state,
the two spin vectors read from the side-table, the two orbit-element sets,
and the derived spin magnitude. -/
structure LoopObservables where
  t : ℝ
  sunx : ℝ
  suny : ℝ
  sunz : ℝ
  sunvx : ℝ
  sunvy : ℝ
  sunvz : ℝ
  star_sx : ℝ
  star_sy : ℝ
  star_sz : ℝ
  a1 : ℝ
  i1 : ℝ
  e1 : ℝ
  s1x : ℝ
  s1y : ℝ
  s1z : ℝ
  mag1 : ℝ
  pom1 : ℝ
  Om1 : ℝ
  f1 : ℝ
  p1x : ℝ
  p1y : ℝ
  p1z : ℝ
  p1vx : ℝ
  p1vy : ℝ
  p1vz : ℝ
  a2 : ℝ
  i2 : ℝ
  e2 : ℝ
  Om2 : ℝ
  pom2 : ℝ

/-- Line 88: the comma-separated field names of the header line the driver
writes once, in order. -/
def headerFields : List String :=
  ["t", "starx", "stary", "starz", "starvx", "starvy", "starvz",
   "star_sx", "star_sy", "star_sz", "a1", "i1", "e1",
   "s1x", "s1y", "s1z", "mag1", "pom1", "Om1", "f1",
   "p1x", "p1y", "p1z", "p1vx", "p1vy", "p1vz",
   "a2", "i2", "e2", "Om2", "pom2"]

/-- Line 128: the values of the one comma-separated record the loop body
writes to the output file, in the order of the `fprintf` arguments
(the time is printed divided by `2 * M_PI`). -/
def recordFields (o : LoopObservables) : List ℝ :=
  [o.t / (2 * M_PI), o.sunx, o.suny, o.sunz, o.sunvx, o.sunvy, o.sunvz,
   o.star_sx, o.star_sy, o.star_sz, o.a1, o.i1, o.e1,
   o.s1x, o.s1y, o.s1z, o.mag1, o.pom1, o.Om1, o.f1,
   o.p1x, o.p1y, o.p1z, o.p1vx, o.p1vy, o.p1vz,
   o.a2, o.i2, o.e2, o.Om2, o.pom2]

/-- The value printed under each header field name: pairing the header of
line 88 with the `fprintf` arguments of line 128 position by position. -/
def fieldValue (o : LoopObservables) : String → Option ℝ
  | "t" => some (o.t / (2 * M_PI))
  | "starx" => some o.sunx
  | "stary" => some o.suny
  | "starz" => some o.sunz
  | "starvx" => some o.sunvx
  | "starvy" => some o.sunvy
  | "starvz" => some o.sunvz
  | "star_sx" => some o.star_sx
  | "star_sy" => some o.star_sy
  | "star_sz" => some o.star_sz
  | "a1" => some o.a1
  | "i1" => some o.i1
  | "e1" => some o.e1
  | "s1x" => some o.s1x
  | "s1y" => some o.s1y
  | "s1z" => some o.s1z
  | "mag1" => some o.mag1
  | "pom1" => some o.pom1
  | "Om1" => some o.Om1
  | "f1" => some o.f1
  | "p1x" => some o.p1x
  | "p1y" => some o.p1y
  | "p1z" => some o.p1z
  | "p1vx" => some o.p1vx
  | "p1vy" => some o.p1vy
  | "p1vz" => some o.p1vz
  | "a2" => some o.a2
  | "i2" => some o.i2
  | "e2" => some o.e2
  | "Om2" => some o.Om2
  | "pom2" => some o.pom2
  | _ => none

/-! ## The planet's initial spin vector as read at the first iteration -/

/-- Line 78: the value stored under `spin_sx` for the planet,
`spin_p * sin(theta_1) * sin(phi_1)`. -/
def s1x_init : ℝ := spin_p * Real.sin theta_1 * Real.sin phi_1

/-- Line 79: the value stored under `spin_sy` for the planet,
`spin_p * sin(theta_1) * cos(phi_1)`. -/
def s1y_init : ℝ := spin_p * Real.sin theta_1 * Real.cos phi_1

/-- Line 80: the value stored under `spin_sz` for the planet,
`spin_p * cos(theta_1)`. -/
def s1z_init : ℝ := spin_p * Real.cos theta_1

/-- Line 122 evaluated at the first iteration: the spin magnitude
`sqrt(s1.x * s1.x + s1.y * s1.y + s1.z * s1.z)` of the initial planet
spin vector. -/
def mag1_init : ℝ :=
  Real.sqrt (s1x_init * s1x_init + s1y_init * s1y_init + s1z_init * s1z_init)

/-! ## Helper lemmas -/

/-- Closed form of the simulation clock: each loop iteration advances the
clock by exactly `100 * 2 * M_PI`. -/
theorem loop_t_closed (n : ℕ) : loop_t n = n * (100 * 2 * M_PI) := by
  induction n with
  | zero => simp [loop_t]
  | succ k ih =>
    simp [loop_t, reb_integrate, ih]
    ring

/-- An integration step rewrites values only, so whether a lookup finds an
entry is unchanged. -/
theorem find_isSome_integrateParams (u : ℕ → String → ℝ → ℝ)
    (ps : List (ℕ × String × ℝ)) (p : ℕ) (k : String) :
    (List.find? (fun e => e.1 == p && e.2.1 == k) (integrateParams u ps)).isSome =
    (List.find? (fun e => e.1 == p && e.2.1 == k) ps).isSome := by
  induction ps with
  | nil => rfl
  | cons hd tl ih =>
    obtain ⟨a, b, c⟩ := hd
    simp only [integrateParams]
    cases ha : (a == p) <;> cases hb : (b == k) <;>
      simp [List.find?, ha, hb, ih]

/-- Found-ness of a parameter lookup is preserved by one integration
step. -/
theorem get_isSome_integrate (u : ℕ → String → ℝ → ℝ) (rebx : RebxExtras)
    (p : ℕ) (k : String) :
    (rebx_get_param { rebx with params := integrateParams u rebx.params } p k).isSome =
    (rebx_get_param rebx p k).isSome := by
  unfold rebx_get_param
  have h := find_isSome_integrateParams u rebx.params p k
  cases h1 : List.find? (fun e => e.1 == p && e.2.1 == k) (integrateParams u rebx.params) <;>
  cases h2 : List.find? (fun e => e.1 == p && e.2.1 == k) rebx.params <;>
    simp [h1, h2] at h ⊢

/-- Found-ness of a parameter lookup at the top of any loop iteration
agrees with found-ness right after setup. -/
theorem get_isSome_rebxAfter (u : ℕ → ℕ → String → ℝ → ℝ) (n : ℕ)
    (p : ℕ) (k : String) :
    (rebx_get_param (rebxAfter u n) p k).isSome =
    (rebx_get_param setupRebx p k).isSome := by
  induction n with
  | zero => rfl
  | succ m ih => exact (get_isSome_integrate (u m) (rebxAfter u m) p k).trans ih

/-- The planet's spin rate `spin_p` is positive. -/
theorem spin_p_pos : 0 < spin_p := by
  unfold spin_p spin_period_p M_PI
  have := Real.pi_pos
  positivity

/-- The z-component of the planet's initial spin vector is positive: the
obliquity is one degree, whose cosine is positive. -/
theorem s1z_init_pos : 0 < s1z_init := by
  have hθ : theta_1 = Real.pi / 180 := by unfold theta_1 M_PI; ring
  have hcos : 0 < Real.cos theta_1 := by
    apply Real.cos_pos_of_mem_Ioo
    constructor
    · rw [hθ]; nlinarith [Real.pi_pos]
    · rw [hθ]; nlinarith [Real.pi_pos]
  exact mul_pos spin_p_pos hcos

/-- The planet's initial spin magnitude is positive. -/
theorem mag1_init_pos : 0 < mag1_init := by
  unfold mag1_init
  apply Real.sqrt_pos.mpr
  nlinarith [mul_self_nonneg s1x_init, mul_self_nonneg s1y_init, s1z_init_pos]

/-- The z-component of the planet's initial spin vector is bounded by the
spin magnitude. -/
theorem s1z_le_mag1 : s1z_init ≤ mag1_init := by
  have h1 : s1z_init = Real.sqrt (s1z_init * s1z_init) :=
    (Real.sqrt_mul_self s1z_init_pos.le).symm
  rw [h1]
  unfold mag1_init
  apply Real.sqrt_le_sqrt
  nlinarith [mul_self_nonneg s1x_init, mul_self_nonneg s1y_init]

/-! ## The claims -/

/-- C1, counterexample: after the 1000000 iterations of the main loop the
simulation clock does not equal the declared `tmax = 1e5 * 2π`: the loop
never uses `tmax`, and each of its 10^6 `reb_integrate` calls advances the
clock by `100 * 2π`. -/
theorem C1_counterexample : loop_t 1000000 ≠ tmax := by
  rw [loop_t_closed]
  unfold tmax M_PI
  intro h
  nlinarith [Real.pi_pos, h]

/-- C1, amended: after the main loop completes, the simulation clock equals
`10^8 * 2π` — one thousand times the declared `tmax` — because the loop
runs 10^6 iterations and each `reb_integrate` call targets the current
time plus `100 * 2π`. -/
theorem C1_loop_total_time :
    loop_t 1000000 = 1000 * tmax ∧
    loop_t 1000000 = 1e8 * (2 * M_PI) ∧
    ∀ n : ℕ, loop_t (n + 1) = loop_t n + 100 * 2 * M_PI := by
  refine ⟨?_, ?_, fun n => rfl⟩
  · rw [loop_t_closed]
    unfold tmax M_PI
    ring_nf
  · rw [loop_t_closed]
    unfold M_PI
    ring_nf

/-- C2: the driver's initial configuration matches the spec's concrete
scenario — star of mass 1.1, planet added at semi-major axis 5 with
eccentricity 0.1, perturber added at semi-major axis 1000 with
eccentricity 0 and inclination 85.6 degrees converted to radians — and all
three particle additions happen in the setup phase, none of whose calls
advances simulation time. -/
theorem C2_initial_configuration :
    setupSim.particles =
      [ParticleInit.cartesian 1.1 0.00465 0 0 0 0 0 0,
       ParticleInit.fmt_m_r_a_e_omega planet_m planet_r 5 0.1 planet_omega,
       ParticleInit.fmt_m_a_e_inc 1.1 1000 0 (85.6 * (Real.pi / 180))] ∧
    Call.rebAdd 0 ∈ setupCalls ∧
    Call.rebAddFmt 1 ∈ setupCalls ∧
    Call.rebAddFmt 2 ∈ setupCalls ∧
    setupCalls.all (fun c => !(advancesTime c)) = true :=
  ⟨rfl, by decide, by decide, by decide, by decide⟩

/-- C3: the mass the driver passes for the planet particle is
`7.8 * 9.55e-4` (7.8 Jupiter masses) and in particular is not zero, even
though the source's own comment calls the planet a zero-mass test
particle. -/
theorem C3_planet_mass_nonzero :
    planet_m = 7.8 * 9.55e-4 ∧ planet_m ≠ 0 :=
  ⟨rfl, by unfold planet_m; norm_num⟩

/-- C4: before the first call that advances simulation time, the driver
sets all three spin components for both the star (particle 0) and the
planet (particle 1) and initializes the spin ODE: after setup every spin
lookup finds a value and the spin-ODE flag is set, the corresponding calls
all belong to the setup phase, and no setup-phase call advances the
clock. -/
theorem C4_spin_state_initialized_before_integration :
    (rebx_get_param setupRebx 0 "spin_sx").isSome = true ∧
    (rebx_get_param setupRebx 0 "spin_sy").isSome = true ∧
    (rebx_get_param setupRebx 0 "spin_sz").isSome = true ∧
    (rebx_get_param setupRebx 1 "spin_sx").isSome = true ∧
    (rebx_get_param setupRebx 1 "spin_sy").isSome = true ∧
    (rebx_get_param setupRebx 1 "spin_sz").isSome = true ∧
    setupRebx.spinOdeInitialized = true ∧
    Call.setParamDouble 0 ("spin_sx") ∈ setupCalls ∧
    Call.setParamDouble 0 ("spin_sy") ∈ setupCalls ∧
    Call.setParamDouble 0 ("spin_sz") ∈ setupCalls ∧
    Call.setParamDouble 1 ("spin_sx") ∈ setupCalls ∧
    Call.setParamDouble 1 ("spin_sy") ∈ setupCalls ∧
    Call.setParamDouble 1 ("spin_sz") ∈ setupCalls ∧
    Call.spinInitializeOde ∈ setupCalls ∧
    setupCalls.all (fun c => !(advancesTime c)) = true :=
  ⟨rfl, rfl, rfl, rfl, rfl, rfl, rfl,
   by decide, by decide, by decide, by decide, by decide, by decide,
   by decide, by decide⟩

/-- C5: on every iteration of the main loop the driver writes exactly one
record to the output file; the header has 31 fields, every record has 31
fields, and the record's values stand in exactly the order the header
declares (pairing each header name with the value printed under it). -/
theorem C5_output_record_shape :
    headerFields.length = 31 ∧
    (∀ o : LoopObservables, (recordFields o).length = 31) ∧
    (∀ o : LoopObservables,
      recordFields o = headerFields.filterMap (fieldValue o)) ∧
    (∀ i : ℕ, (loopBodyCalls i).count Call.fprintfRecord = 1) := by
  refine ⟨by decide, fun o => rfl, fun o => rfl, ?_⟩
  intro i
  unfold loopBodyCalls
  rcases eq_or_ne (i % 10000) 0 with h | h <;> simp [h, List.count]

/-- C6: at the top of every iteration of the main loop, each of the six
spin-component lookups (keys spin_sx, spin_sy, spin_sz on particles 0
and 1) finds a value, whatever values the integrator wrote back on the
earlier iterations: the keys were set during setup and integration steps
rewrite values without adding or removing entries. -/
theorem C6_spin_lookups_found :
    ∀ (u : ℕ → ℕ → String → ℝ → ℝ) (n : ℕ),
    (rebx_get_param (rebxAfter u n) 0 "spin_sx").isSome = true ∧
    (rebx_get_param (rebxAfter u n) 0 "spin_sy").isSome = true ∧
    (rebx_get_param (rebxAfter u n) 0 "spin_sz").isSome = true ∧
    (rebx_get_param (rebxAfter u n) 1 "spin_sx").isSome = true ∧
    (rebx_get_param (rebxAfter u n) 1 "spin_sy").isSome = true ∧
    (rebx_get_param (rebxAfter u n) 1 "spin_sz").isSome = true := by
  intro u n
  refine ⟨?_, ?_, ?_, ?_, ?_, ?_⟩ <;> rw [get_isSome_rebxAfter] <;> rfl

/-- C8: during setup — in which no call advances simulation time — the
driver sets the initial timestep to `π * 10⁻¹` and selects the IAS15
integrator, which adapts its own step size and whose scheme order 15 is at
least 7. -/
theorem C8_timestep_and_integrator :
    setupSim.dt = Real.pi / 10 ∧
    setupSim.integrator = RebIntegrator.ias15 ∧
    RebIntegrator.adaptive setupSim.integrator = true ∧
    7 ≤ RebIntegrator.order setupSim.integrator ∧
    Call.setDt ∈ setupCalls ∧
    Call.setIntegrator ∈ setupCalls ∧
    setupCalls.all (fun c => !(advancesTime c)) = true := by
  refine ⟨?_, rfl, rfl, by decide, by decide, by decide, by decide⟩
  show M_PI * 1e-1 = Real.pi / 10
  unfold M_PI
  norm_num
  ring

/-- C9: each loop iteration passes the target time `current time plus
100 * 2π` to `reb_integrate`, so the sequence of requested target times is
strictly increasing and the simulation clock is monotonically
non-decreasing across the run. -/
theorem C9_monotone_clock :
    (∀ n : ℕ, targetTime n = loop_t n + 100 * 2 * M_PI) ∧
    StrictMono targetTime ∧ Monotone loop_t := by
  have hstep : ∀ n : ℕ, loop_t n < loop_t (n + 1) := by
    intro n
    have h : loop_t (n + 1) = loop_t n + 100 * 2 * M_PI := rfl
    rw [h]
    have := Real.pi_pos
    unfold M_PI
    nlinarith
  refine ⟨fun n => rfl, ?_, ?_⟩
  · apply strictMono_nat_of_lt_succ
    intro n
    unfold targetTime
    have := hstep n
    linarith
  · exact monotone_nat_of_le_succ (fun n => (hstep n).le)

/-- C10: at the first iteration of the loop the three spin lookups for the
planet return exactly the initial spin vector set during setup, its
z-component and magnitude are strictly positive (so the obliquity
computation divides by a nonzero number), and the argument of `acos` lies
in the interval from -1 to 1. -/
theorem C10_first_iteration_spin_magnitude :
    rebx_get_param setupRebx 1 "spin_sx" = some s1x_init ∧
    rebx_get_param setupRebx 1 "spin_sy" = some s1y_init ∧
    rebx_get_param setupRebx 1 "spin_sz" = some s1z_init ∧
    0 < s1z_init ∧ 0 < mag1_init ∧
    -1 ≤ s1z_init / mag1_init ∧ s1z_init / mag1_init ≤ 1 := by
  refine ⟨rfl, rfl, rfl, s1z_init_pos, mag1_init_pos, ?_, ?_⟩
  · have := div_nonneg s1z_init_pos.le mag1_init_pos.le
    linarith
  · exact (div_le_one mag1_init_pos).mpr s1z_le_mag1

end

end Kozai
